import Mathlib

/-!
# Verification of the Portam fare-validation engine

Shallow embedding of the validation decision engine of the portam-server
repository (`src/controllers/validation.js` and `src/messages/validation.js`).

Timestamps are modelled as integers (milliseconds since epoch); the JS code
compares elapsed time in minutes via floating division
`(now - t) / 60000 < window`, which over exact values is equivalent to the
integer comparison `now - t < window * 60000` used here.

Store operations that can fail in the original (Supabase calls) are modelled
by a `Faults` record of flags: a flagged operation performs no write and
returns an error, exactly as a failed Supabase call does; earlier writes of
the same request are left in place, as the JS code has no transactions.
-/

namespace Portam

/-- Localized message texts (ca / en / es), from `src/messages/validation.js`. -/
structure Msg where
  ca : String
  en : String
  es : String
deriving Repr, DecidableEq

/-- A catalog message: success flag, numeric HTTP code, machine tag, texts. -/
structure Message where
  success : Bool
  code : Nat
  status : String
  msg : Msg
deriving Repr, DecidableEq

def VALIDATION_SUCCESS : Message :=
  { success := true, code := 200, status := "VALIDATION_SUCCESS",
    msg := { ca := "Validació correcta", en := "Validation successful", es := "Validación correcta" } }

def HISTORY_FETCH_SUCCESS : Message :=
  { success := true, code := 200, status := "HISTORY_FETCH_SUCCESS",
    msg := { ca := "Historial de validacions obtingut correctament",
             en := "Validation history fetched successfully",
             es := "Historial de validaciones obtenido correctamente" } }

def ERROR_SUPORT_NOT_FOUND : Message :=
  { success := false, code := 404, status := "ERROR_SUPORT_NOT_FOUND",
    msg := { ca := "Suport no trobat", en := "Support not found", es := "Soporte no encontrado" } }

def ERROR_SUPORT_INACTIVE : Message :=
  { success := false, code := 403, status := "ERROR_SUPORT_INACTIVE",
    msg := { ca := "Suport inactiu", en := "Support inactive", es := "Soporte inactivo" } }

def ERROR_STATION_NOT_AVAILABLE : Message :=
  { success := false, code := 404, status := "ERROR_STATION_NOT_AVAILABLE",
    msg := { ca := "Estació no disponible", en := "Station not available", es := "Estación no disponible" } }

def ERROR_NO_USER_TITLE_ACTIVE : Message :=
  { success := false, code := 404, status := "ERROR_NO_USER_TITLE_ACTIVE",
    msg := { ca := "No tens cap títol actiu", en := "You have no active title", es := "No tienes ningún título activo" } }

def ERROR_USER_TITLE_EXPIRED : Message :=
  { success := false, code := 410, status := "ERROR_USER_TITLE_EXPIRED",
    msg := { ca := "El teu títol ha caducat", en := "Your title has expired", es := "Tu título ha caducado" } }

def ERROR_CANNOT_INITIALIZE_USER_TITLE : Message :=
  { success := false, code := 403, status := "ERROR_CANNOT_INITIALIZE_USER_TITLE",
    msg := { ca := "No pots inicialitzar el títol en aquesta estació",
             en := "You cannot initialize the title at this station",
             es := "No puedes inicializar el título en esta estación" } }

def ERROR_REENTRY_TIME_NOT_PASSED : Message :=
  { success := false, code := 429, status := "ERROR_REENTRY_TIME_NOT_PASSED",
    msg := { ca := "No pots tornar a validar a la mateixa estació encara",
             en := "You cannot validate at the same station yet",
             es := "No puedes volver a validar en la misma estación todavía" } }

def ERROR_USER_TITLE_NOT_VALID_FOR_ZONE : Message :=
  { success := false, code := 403, status := "ERROR_USER_TITLE_NOT_VALID_FOR_ZONE",
    msg := { ca := "El teu títol no és vàlid per aquesta zona",
             en := "Your title is not valid for this zone",
             es := "Tu título no es válido para esta zona" } }

def ERROR_NO_USES_LEFT : Message :=
  { success := false, code := 410, status := "ERROR_NO_USES_LEFT",
    msg := { ca := "No et queden viatges disponibles",
             en := "You have no trips left", es := "No te quedan viajes disponibles" } }

def ERROR_INTERNAL_SERVER : Message :=
  { success := false, code := 500, status := "ERROR_INTERNAL_SERVER",
    msg := { ca := "Error intern del servidor", en := "Internal server error", es := "Error interno del servidor" } }

def ERROR_MISSING_PARAMETERS : Message :=
  { success := false, code := 400, status := "ERROR_MISSING_PARAMETERS",
    msg := { ca := "Falten paràmetres requerits",
             en := "Missing required parameters", es := "Faltan parámetros requeridos" } }

/-- The message catalog, in source order. -/
def messagesList : List Message :=
  [VALIDATION_SUCCESS, HISTORY_FETCH_SUCCESS, ERROR_SUPORT_NOT_FOUND,
   ERROR_SUPORT_INACTIVE, ERROR_STATION_NOT_AVAILABLE, ERROR_NO_USER_TITLE_ACTIVE,
   ERROR_USER_TITLE_EXPIRED, ERROR_CANNOT_INITIALIZE_USER_TITLE,
   ERROR_REENTRY_TIME_NOT_PASSED, ERROR_USER_TITLE_NOT_VALID_FOR_ZONE,
   ERROR_NO_USES_LEFT, ERROR_INTERNAL_SERVER, ERROR_MISSING_PARAMETERS]

/-- The nine domain-denial messages of §4.2 / §7. -/
def denialMessages : List Message :=
  [ERROR_SUPORT_NOT_FOUND, ERROR_SUPORT_INACTIVE, ERROR_STATION_NOT_AVAILABLE,
   ERROR_NO_USER_TITLE_ACTIVE, ERROR_USER_TITLE_EXPIRED,
   ERROR_CANNOT_INITIALIZE_USER_TITLE, ERROR_REENTRY_TIME_NOT_PASSED,
   ERROR_USER_TITLE_NOT_VALID_FOR_ZONE, ERROR_NO_USES_LEFT]

/-- `getMessage` from `src/messages/validation.js`: lookup by tag (object keys
equal the `status` fields), defaulting to `ERROR_INTERNAL_SERVER`. -/
def getMessage (statusCode : String) : Message :=
  (messagesList.find? (fun m => m.status == statusCode)).getD ERROR_INTERNAL_SERVER

/-- Extra payload merged into `VALIDATION_SUCCESS` by `getMessageWithData`. -/
structure SuccessData where
  timestamp : Int
  station_id : Int
  user_title_id : Int
  uses_left : Option Int
  expiration : Option Int
  link : Bool
deriving Repr, DecidableEq

/-- An HTTP response of the validation endpoint: a catalog message, possibly
merged with success data (internal diagnostic strings are not modelled). -/
structure Response where
  message : Message
  data : Option SuccessData
deriving Repr, DecidableEq

/-- A response that is a bare catalog message. -/
def plainResp (m : Message) : Response := { message := m, data := none }

/-- The success response built at the end of the pipeline. -/
def mkSuccess (ts st utid : Int) (usesLeft expi : Option Int) (lnk : Bool) : Response :=
  { message := VALIDATION_SUCCESS,
    data := some { timestamp := ts, station_id := st, user_title_id := utid,
                   uses_left := usesLeft, expiration := expi, link := lnk } }

/-! ## Data model (tables documented at the top of `src/controllers/validation.js`) -/

/-- `suports` row: physical credential. -/
structure Suport where
  uid : Int
  user : Int
  activation : Option Int
deriving Repr, DecidableEq

/-- `stations` row (only the fields the engine reads). -/
structure Station where
  id : Int
  available : Bool
deriving Repr, DecidableEq

/-- `user_titles` row: issued fare product. -/
structure UserTitle where
  id : Int
  user : Int
  uses_left : Option Int
  first_use : Option Int
  expiration : Option Int
  re_entry : Option Int
  zone_origin : Option Int
  active : Bool
  link : Option Int
  num_zones : Int
deriving Repr, DecidableEq

/-- `station_zones` row. -/
structure StationZone where
  station : Int
  zone : Int
deriving Repr, DecidableEq

/-- `user_title_zones` row. -/
structure UserTitleZone where
  user_title : Int
  zone : Int
deriving Repr, DecidableEq

/-- `validation` row: a tap event. -/
structure ValidationEvent where
  user : Int
  suport : Int
  timestamp : Int
  station : Int
  enter : Bool
  user_title : Int
deriving Repr, DecidableEq

/-- The persistent store. -/
structure DB where
  suports : List Suport
  stations : List Station
  station_zones : List StationZone
  zones : List Int
  user_titles : List UserTitle
  user_title_zones : List UserTitleZone
  validations : List ValidationEvent
deriving Repr, DecidableEq

/-- Which Supabase calls fail in this request (a failed call performs no
write and returns an error object, surfaced as the JS code surfaces it). -/
structure Faults where
  stationZonesFetchInit : Bool
  allZonesFetch : Bool
  firstUseUpdate : Bool
  zonesInsert : Bool
  stationZonesFetch : Bool
  titleZonesFetch : Bool
  eventInsert : Bool
  usesUpdate : Bool
deriving Repr, DecidableEq

/-- No store operation fails. -/
def noFaults : Faults := ⟨false, false, false, false, false, false, false, false⟩

/-! ## Store queries -/

/-- `.from('suports').select().eq('uid', s).single()`: errors unless exactly
one row matches. -/
def findSuport (db : DB) (uid : Int) : Option Suport :=
  match db.suports.filter (fun r => r.uid == uid) with
  | [r] => some r
  | _ => none

/-- `.from('stations').select().eq('id', st).single()`. -/
def findStation (db : DB) (id : Int) : Option Station :=
  match db.stations.filter (fun r => r.id == id) with
  | [r] => some r
  | _ => none

/-- `.from('user_titles').select().eq('user', u).eq('active', true).single()`. -/
def findActiveUserTitle (db : DB) (user : Int) : Option UserTitle :=
  match db.user_titles.filter (fun r => r.user == user && r.active) with
  | [r] => some r
  | _ => none

/-- Ascending sort: models `order('zone', ascending: true)`. -/
def sortAsc (l : List Int) : List Int := List.insertionSort (fun a b => a ≤ b) l

/-- `.from('station_zones').select('zone').eq('station', st).order('zone')`. -/
def stationZonesAsc (db : DB) (station : Int) : List Int :=
  sortAsc ((db.station_zones.filter (fun r => r.station == station)).map (fun r => r.zone))

/-- `.from('validation').select().eq('user_title', ut).order('timestamp',
descending).limit(1).single()`: the event with the greatest timestamp, if any
(zero rows make `.single()` error, which the JS code treats as no event). -/
def mostRecentValidation (db : DB) (ut : Int) : Option ValidationEvent :=
  (db.validations.filter (fun e => e.user_title == ut)).foldl
    (fun acc e =>
      match acc with
      | none => some e
      | some a => if a.timestamp < e.timestamp then some e else some a)
    none

/-! ## Zone Resolver -/

/-- The circular-zone computation of gate 6 (`validation.js` lines 197-212):
radius = numZones − 1; candidates are zoneOrigin − radius … zoneOrigin + radius;
keep exactly those that exist. -/
def circularZones (existing : List Int) (zoneOrigin numZones : Int) : List Int :=
  let radius := numZones - 1
  (List.range (2 * radius + 1).toNat).filterMap fun (off : Nat) =>
    let zoneId := zoneOrigin - radius + (off : Int)
    if zoneId ∈ existing then some zoneId else none

/-! ## Store mutations -/

/-- `update(first_use, zone_origin).eq('id', id)` on `user_titles`. -/
def dbUpdateFirstUse (db : DB) (id now zoneOrigin : Int) : DB :=
  { db with user_titles := db.user_titles.map (fun r =>
      if r.id == id then { r with first_use := some now, zone_origin := some zoneOrigin } else r) }

/-- `insert` of one row per covered zone into `user_title_zones`. -/
def dbInsertTitleZones (db : DB) (id : Int) (zoneIds : List Int) : DB :=
  { db with user_title_zones :=
      db.user_title_zones ++ zoneIds.map (fun z => { user_title := id, zone := z }) }

/-- `insert` of the validation event. -/
def dbInsertValidation (db : DB) (ev : ValidationEvent) : DB :=
  { db with validations := db.validations ++ [ev] }

/-- `update(uses_left).eq('id', id)` on `user_titles`. -/
def dbUpdateUses (db : DB) (id v : Int) : DB :=
  { db with user_titles := db.user_titles.map (fun r =>
      if r.id == id then { r with uses_left := some v } else r) }

/-! ## Gate predicates -/

/-- Gate 2: `!activation || new Date(activation) > new Date()`. -/
def suportInactive (now : Int) (sd : Suport) : Bool :=
  match sd.activation with
  | none => true
  | some a => decide (now < a)

/-- Gate 5: `expiration && new Date(expiration) < new Date()`. -/
def titleExpired (now : Int) (ut : UserTitle) : Bool :=
  match ut.expiration with
  | none => false
  | some e => decide (e < now)

/-- Gate 7: a most recent event exists, at the same station, strictly within
the re-entry window (minutes). -/
def reentryBlocked (db : DB) (now station : Int) (ut : UserTitle) : Bool :=
  match ut.re_entry with
  | none => false
  | some re =>
    match mostRecentValidation db ut.id with
    | none => false
    | some lv => lv.station == station && decide (now - lv.timestamp < re * 60000)

/-- Gate 8: the station's zone list and the title's covered-zone list share
an element (`some`/`includes` in the JS). -/
def hasCommonZone (db : DB) (station utid : Int) : Bool :=
  let stationZoneIds := (db.station_zones.filter (fun r => r.station == station)).map (fun r => r.zone)
  let userTitleZoneIds := (db.user_title_zones.filter (fun r => r.user_title == utid)).map (fun r => r.zone)
  stationZoneIds.any (fun z => userTitleZoneIds.contains z)

/-- Gate 9: a most recent event exists, strictly within the link window, at a
different station. -/
def linkFree (db : DB) (now station : Int) (ut : UserTitle) : Bool :=
  match ut.link with
  | none => false
  | some lnk =>
    match mostRecentValidation db ut.id with
    | none => false
    | some lv => decide (now - lv.timestamp < lnk * 60000) && lv.station != station

/-! ## The pipeline -/

/-- Gates 8-10 and the terminal writes (`validation.js` lines 295-418). -/
def rest8 (f : Faults) (db : DB) (now user suportUid station : Int) (ut : UserTitle) : Response × DB :=
  if f.stationZonesFetch then (plainResp ERROR_INTERNAL_SERVER, db)
  else if f.titleZonesFetch then (plainResp ERROR_INTERNAL_SERVER, db)
  else if !hasCommonZone db station ut.id then
    (plainResp (getMessage "ERROR_USER_TITLE_NOT_VALID_FOR_ZONE"), db)
  else
    let isFree := linkFree db now station ut
    if !isFree && (match ut.uses_left with | some u => decide (u ≤ 0) | none => false) then
      (plainResp (getMessage "ERROR_NO_USES_LEFT"), db)
    else if f.eventInsert then (plainResp ERROR_INTERNAL_SERVER, db)
    else
      let db3 := dbInsertValidation db
        { user := user, suport := suportUid, timestamp := now, station := station,
          enter := true, user_title := ut.id }
      if !isFree then
        match ut.uses_left with
        | some u =>
          if f.usesUpdate then (plainResp ERROR_INTERNAL_SERVER, db3)
          else (mkSuccess now station ut.id (some (u - 1)) ut.expiration false,
                dbUpdateUses db3 ut.id (u - 1))
        | none => (mkSuccess now station ut.id none ut.expiration false, db3)
      else (mkSuccess now station ut.id ut.uses_left ut.expiration true, db3)

/-- Gates 7-10 and the terminal writes. -/
def afterInit (f : Faults) (db : DB) (now user suportUid station : Int) (ut : UserTitle) : Response × DB :=
  if reentryBlocked db now station ut then
    (plainResp (getMessage "ERROR_REENTRY_TIME_NOT_PASSED"), db)
  else rest8 f db now user suportUid station ut

/-- Gate 6, the lazy first-use path (`validation.js` lines 162-265): returns
either an early response or the updated in-memory title plus the store after
the initialization writes. -/
def initPhase (f : Faults) (db : DB) (now station : Int) (ut : UserTitle) :
    (Response × DB) ⊕ (UserTitle × DB) :=
  if f.stationZonesFetchInit then
    Sum.inl (plainResp (getMessage "ERROR_CANNOT_INITIALIZE_USER_TITLE"), db)
  else
    match stationZonesAsc db station with
    | [] => Sum.inl (plainResp (getMessage "ERROR_CANNOT_INITIALIZE_USER_TITLE"), db)
    | zoneOrigin :: _ =>
      if f.allZonesFetch then Sum.inl (plainResp ERROR_INTERNAL_SERVER, db)
      else
        let userTitleZoneIds := circularZones db.zones zoneOrigin ut.num_zones
        if userTitleZoneIds.isEmpty then
          Sum.inl (plainResp (getMessage "ERROR_CANNOT_INITIALIZE_USER_TITLE"), db)
        else if f.firstUseUpdate then Sum.inl (plainResp ERROR_INTERNAL_SERVER, db)
        else
          let db1 := dbUpdateFirstUse db ut.id now zoneOrigin
          if f.zonesInsert then Sum.inl (plainResp ERROR_INTERNAL_SERVER, db1)
          else
            let db2 := dbInsertTitleZones db1 ut.id userTitleZoneIds
            Sum.inr ({ ut with first_use := some now, zone_origin := some zoneOrigin }, db2)

/-- The validation pipeline after the missing-parameters check, on resolved
integer ids: gates 1-10 plus the terminal writes of `validation.js`. -/
def validate (f : Faults) (db : DB) (now suport station : Int) : Response × DB :=
  match findSuport db suport with
  | none => (plainResp (getMessage "ERROR_SUPORT_NOT_FOUND"), db)
  | some suportData =>
    if suportInactive now suportData then (plainResp (getMessage "ERROR_SUPORT_INACTIVE"), db)
    else
      match findStation db station with
      | none => (plainResp (getMessage "ERROR_STATION_NOT_AVAILABLE"), db)
      | some stationData =>
        if !stationData.available then (plainResp (getMessage "ERROR_STATION_NOT_AVAILABLE"), db)
        else
          match findActiveUserTitle db suportData.user with
          | none => (plainResp (getMessage "ERROR_NO_USER_TITLE_ACTIVE"), db)
          | some userTitleData =>
            if titleExpired now userTitleData then
              (plainResp (getMessage "ERROR_USER_TITLE_EXPIRED"), db)
            else
              match userTitleData.first_use with
              | some _ => afterInit f db now suportData.user suport station userTitleData
              | none =>
                match initPhase f db now station userTitleData with
                | Sum.inl r => r
                | Sum.inr (ut2, db2) => afterInit f db2 now suportData.user suport station ut2

/-! ## Request-body values and the missing-parameters check -/

/-- A JSON value as it arrives in `req.body` (the shapes the endpoint can
meet: absent key, null, number, string). -/
inductive JSVal where
  | vundef : JSVal
  | vnull : JSVal
  | vnum : Int → JSVal
  | vstr : String → JSVal
deriving Repr, DecidableEq

/-- JavaScript falsiness of a body value: `undefined`, `null`, `0`, `""`. -/
def jsFalsy : JSVal → Bool
  | JSVal.vundef => true
  | JSVal.vnull => true
  | JSVal.vnum n => n == 0
  | JSVal.vstr s => s == ""

/-- Resolution of a body value to an `int8` key as PostgREST coerces it:
numbers pass through, numeric strings parse, anything else errors. -/
def jsToInt : JSVal → Option Int
  | JSVal.vnum n => some n
  | JSVal.vstr s => s.toInt?
  | _ => none

/-- The whole endpoint (`validation.js` lines 103-427): the falsiness check on
the two body parameters, then the pipeline; a non-resolvable truthy value makes
the corresponding `.single()` fetch error, surfaced as that gate's denial. -/
def validation (f : Faults) (db : DB) (now : Int) (suport station : JSVal) : Response × DB :=
  if jsFalsy suport || jsFalsy station then
    (plainResp (getMessage "ERROR_MISSING_PARAMETERS"), db)
  else
    match jsToInt suport with
    | none => (plainResp (getMessage "ERROR_SUPORT_NOT_FOUND"), db)
    | some s =>
      match jsToInt station with
      | some st => validate f db now s st
      | none =>
        match findSuport db s with
        | none => (plainResp (getMessage "ERROR_SUPORT_NOT_FOUND"), db)
        | some suportData =>
          if suportInactive now suportData then
            (plainResp (getMessage "ERROR_SUPORT_INACTIVE"), db)
          else (plainResp (getMessage "ERROR_STATION_NOT_AVAILABLE"), db)

/-- A response that is a success marked as a free (linked) transfer. -/
def isFreeSuccess (r : Response) : Bool :=
  r.message.status == "VALIDATION_SUCCESS" &&
    (match r.data with
     | some d => d.link
     | none => false)

/-- Forget the `uses_left` field of a title row; two stores whose title lists
agree under this map differ at most in remaining-uses counts. -/
def eraseUses (r : UserTitle) : UserTitle := { r with uses_left := none }

/-! ## Concrete fixtures -/

/-- A store with a never-initialized active title that has zero uses left. -/
def dbC1 : DB :=
  { suports := [{ uid := 1, user := 1, activation := some 0 }],
    stations := [{ id := 1, available := true }],
    station_zones := [{ station := 1, zone := 5 }],
    zones := [5],
    user_titles := [{ id := 1, user := 1, uses_left := some 0, first_use := none,
                      expiration := none, re_entry := none, zone_origin := none,
                      active := true, link := none, num_zones := 1 }],
    user_title_zones := [],
    validations := [] }

/-- `dbC1` after the gate-6 initialization writes of a tap at time 100. -/
def dbC1post : DB :=
  { dbC1 with
    user_titles := [{ id := 1, user := 1, uses_left := some 0, first_use := some 100,
                      expiration := none, re_entry := none, zone_origin := some 5,
                      active := true, link := none, num_zones := 1 }],
    user_title_zones := [{ user_title := 1, zone := 5 }] }

/-- A store with an initialized title with two uses left. -/
def dbC1b : DB :=
  { suports := [{ uid := 1, user := 1, activation := some 0 }],
    stations := [{ id := 1, available := true }],
    station_zones := [{ station := 1, zone := 5 }],
    zones := [5],
    user_titles := [{ id := 1, user := 1, uses_left := some 2, first_use := some 0,
                      expiration := none, re_entry := none, zone_origin := some 5,
                      active := true, link := none, num_zones := 1 }],
    user_title_zones := [{ user_title := 1, zone := 5 }],
    validations := [] }

/-- `dbC1b` after the validation-event insert of a tap at time 100. -/
def dbC1bpost : DB :=
  { dbC1b with
    validations := [{ user := 1, suport := 1, timestamp := 100, station := 1,
                      enter := true, user_title := 1 }] }

/-- Faults: only the uses-left decrement fails. -/
def faultsUses : Faults := { noFaults with usesUpdate := true }

/-- A store whose only token has a null activation timestamp. -/
def dbC8 : DB :=
  { dbC1b with suports := [{ uid := 1, user := 1, activation := none }] }

/-- A store holding a token whose uid is the number 0. -/
def dbC10 : DB :=
  { dbC1b with suports := [{ uid := 0, user := 1, activation := some 0 }] }

/-- A store with an initialized title (link=60, re_entry=15, 4 uses left) whose
last validation was at station 1 at time 0; stations 1 and 2 share zone 5. -/
def dbC3 : DB :=
  { suports := [{ uid := 1, user := 1, activation := some 0 }],
    stations := [{ id := 1, available := true }, { id := 2, available := true }],
    station_zones := [{ station := 1, zone := 5 }, { station := 2, zone := 5 }],
    zones := [5],
    user_titles := [{ id := 1, user := 1, uses_left := some 4, first_use := some 0,
                      expiration := none, re_entry := some 15, zone_origin := some 5,
                      active := true, link := some 60, num_zones := 1 }],
    user_title_zones := [{ user_title := 1, zone := 5 }],
    validations := [{ user := 1, suport := 1, timestamp := 0, station := 1,
                      enter := true, user_title := 1 }] }

/-- `dbC3` but the title has zero uses left. -/
def dbC3z : DB :=
  { dbC3 with
    user_titles := [{ id := 1, user := 1, uses_left := some 0, first_use := some 0,
                      expiration := none, re_entry := some 15, zone_origin := some 5,
                      active := true, link := some 60, num_zones := 1 }] }

/-- `dbC3` but the title has no link window and zero uses left. -/
def dbC5 : DB :=
  { dbC3 with
    user_titles := [{ id := 1, user := 1, uses_left := some 0, first_use := some 0,
                      expiration := none, re_entry := none, zone_origin := some 5,
                      active := true, link := none, num_zones := 1 }],
    validations := [] }

/-- `dbC3` but the title has no link window and three uses left. -/
def dbC5b : DB :=
  { dbC3 with
    user_titles := [{ id := 1, user := 1, uses_left := some 3, first_use := some 0,
                      expiration := none, re_entry := none, zone_origin := some 5,
                      active := true, link := none, num_zones := 1 }],
    validations := [] }

/-- The zone ids 0..10. -/
def zones0to10 : List Int := [0, 1, 2, 3, 4, 5, 6, 7, 8, 9, 10]

/-! ## Catalog lookup lemmas -/

theorem getMessage_missing : getMessage "ERROR_MISSING_PARAMETERS" = ERROR_MISSING_PARAMETERS := by decide

theorem getMessage_not_found : getMessage "ERROR_SUPORT_NOT_FOUND" = ERROR_SUPORT_NOT_FOUND := by decide

theorem getMessage_inactive : getMessage "ERROR_SUPORT_INACTIVE" = ERROR_SUPORT_INACTIVE := by decide

theorem getMessage_station : getMessage "ERROR_STATION_NOT_AVAILABLE" = ERROR_STATION_NOT_AVAILABLE := by decide

theorem getMessage_no_title : getMessage "ERROR_NO_USER_TITLE_ACTIVE" = ERROR_NO_USER_TITLE_ACTIVE := by decide

theorem getMessage_expired : getMessage "ERROR_USER_TITLE_EXPIRED" = ERROR_USER_TITLE_EXPIRED := by decide

theorem getMessage_cannot_init : getMessage "ERROR_CANNOT_INITIALIZE_USER_TITLE" = ERROR_CANNOT_INITIALIZE_USER_TITLE := by decide

theorem getMessage_reentry : getMessage "ERROR_REENTRY_TIME_NOT_PASSED" = ERROR_REENTRY_TIME_NOT_PASSED := by decide

theorem getMessage_zone : getMessage "ERROR_USER_TITLE_NOT_VALID_FOR_ZONE" = ERROR_USER_TITLE_NOT_VALID_FOR_ZONE := by decide

theorem getMessage_no_uses : getMessage "ERROR_NO_USES_LEFT" = ERROR_NO_USES_LEFT := by decide

/-! ## Claim theorems -/

/-- Claim C7, counterexample: two distinct domain denials (SupportNotFound and
StationUnavailable) carry the same numeric status code 404, so the denial
catalog is not injective on numeric codes as the claim states. -/
theorem C7_counterexample :
    ERROR_SUPORT_NOT_FOUND.code = ERROR_STATION_NOT_AVAILABLE.code ∧
    ERROR_SUPORT_NOT_FOUND.status ≠ ERROR_STATION_NOT_AVAILABLE.status ∧
    ERROR_SUPORT_NOT_FOUND.code = 404 := by decide

/-- Claim C7, amended: looking a denial up by its tag round-trips to that
exact catalog record, and no two of the nine domain denials share a status
tag; the numeric status codes, however, are not pairwise distinct. -/
theorem C7_amended_catalog :
    (denialMessages.all fun m => getMessage m.status == m) = true ∧
    (denialMessages.map fun m => m.status).Nodup ∧
    ¬ (denialMessages.map fun m => m.code).Nodup := by decide

/-- Claim C2: the Zone Resolver returns exactly the candidate range
origin − (N−1) … origin + (N−1) intersected with the existing zone ids, and on
the spec's two concrete examples it yields 2..6 and 0..3 respectively. -/
theorem C2_zone_resolver :
    (∀ (existing : List Int) (o N z : Int),
      z ∈ circularZones existing o N ↔ o - (N - 1) ≤ z ∧ z ≤ o + (N - 1) ∧ z ∈ existing)
    ∧ circularZones zones0to10 4 3 = [2, 3, 4, 5, 6]
    ∧ circularZones zones0to10 1 3 = [0, 1, 2, 3] := by
  refine ⟨?_, by decide, by decide⟩
  intro existing o N z
  unfold circularZones
  constructor
  · intro hmain
    obtain ⟨i, hi, hz⟩ := List.mem_filterMap.mp hmain
    rw [List.mem_range] at hi
    dsimp only at hz
    by_cases hmem : o - (N - 1) + (i : Int) ∈ existing
    · rw [if_pos hmem] at hz
      obtain rfl := Option.some.inj hz
      exact ⟨by omega, by omega, hmem⟩
    · rw [if_neg hmem] at hz
      exact absurd hz (by simp)
  · rintro ⟨h1, h2, h3⟩
    refine List.mem_filterMap.mpr ⟨(z - (o - (N - 1))).toNat, ?_, ?_⟩
    · rw [List.mem_range]; omega
    · dsimp only
      have hz2 : o - (N - 1) + ((z - (o - (N - 1))).toNat : Int) = z := by omega
      rw [hz2, if_pos h3]

/-- Claim C8: a token whose activation timestamp is null or strictly in the
future is denied SupportInactive whatever the rest of the store holds, and the
store is returned unchanged. -/
theorem C8_inactive_token (f : Faults) (db : DB) (now s st : Int) (sd : Suport)
    (h1 : findSuport db s = some sd)
    (h2 : sd.activation = none ∨ ∃ a, sd.activation = some a ∧ now < a) :
    validate f db now s st = (plainResp ERROR_SUPORT_INACTIVE, db) := by
  have hin : suportInactive now sd = true := by
    unfold suportInactive
    rcases h2 with h | ⟨a, ha, hlt⟩
    · rw [h]
    · rw [ha]
      simpa using hlt
  unfold validate
  rw [h1]
  simp only [hin, getMessage_inactive, if_true]

/-- Witness for C8 at a concrete store whose token has a null activation. -/
theorem C8_witness :
    validate noFaults dbC8 5 1 1 = (plainResp ERROR_SUPORT_INACTIVE, dbC8) :=
  C8_inactive_token noFaults dbC8 5 1 1 { uid := 1, user := 1, activation := none }
    (by decide) (Or.inl rfl)

/-- Claim C10: a request whose token or station body value is JavaScript-falsy
(absent, null, the number 0, or the empty string) is answered with the
missing-parameters outcome (success false, code 400) and the store is
untouched. -/
theorem C10_missing_params (f : Faults) (db : DB) (now : Int) (vs vst : JSVal)
    (h : jsFalsy vs = true ∨ jsFalsy vst = true) :
    validation f db now vs vst = (plainResp ERROR_MISSING_PARAMETERS, db) := by
  unfold validation
  rcases h with h | h <;> rw [h] <;> simp [getMessage_missing]

/-- Witness for C10: the well-formed token uid 0 is rejected as missing
parameters even though a token with uid 0 exists in the store. -/
theorem C10_witness :
    validation noFaults dbC10 7 (JSVal.vnum 0) (JSVal.vnum 1)
      = (plainResp ERROR_MISSING_PARAMETERS, dbC10) ∧
    ({ uid := 0, user := 1, activation := some 0 } : Suport) ∈ dbC10.suports :=
  ⟨C10_missing_params noFaults dbC10 7 (JSVal.vnum 0) (JSVal.vnum 1) (Or.inl rfl),
   by decide⟩

/-- Claim C1 (code bug): evaluating the pipeline shows persisted side effects
on non-success outcomes. A first-use tap on a title with zero uses left is
denied NoUsesLeft, yet the gate-6 initialization writes (first_use,
zone_origin, covered-zone rows) remain in the store; and when the uses-left
decrement fails after the event insert, the InternalError response leaves the
inserted validation event behind. -/
theorem C1_partial_writes_on_denial :
    (validate noFaults dbC1 100 1 1 = (plainResp ERROR_NO_USES_LEFT, dbC1post)
      ∧ dbC1post ≠ dbC1)
    ∧ (validate faultsUses dbC1b 100 1 1 = (plainResp ERROR_INTERNAL_SERVER, dbC1bpost)
      ∧ dbC1bpost ≠ dbC1b) := by decide

/-! ## Pipeline decomposition lemmas -/

theorem validate_eq_afterInit (f : Faults) (db : DB) (now s st : Int)
    (sd : Suport) (stData : Station) (ut : UserTitle) (fu : Int)
    (h1 : findSuport db s = some sd)
    (h2 : suportInactive now sd = false)
    (h3 : findStation db st = some stData)
    (h4 : stData.available = true)
    (h5 : findActiveUserTitle db sd.user = some ut)
    (h6 : titleExpired now ut = false)
    (h7 : ut.first_use = some fu) :
    validate f db now s st = afterInit f db now sd.user s st ut := by
  unfold validate
  rw [h1]
  simp [h2, h3, h4, h5, h6, h7]

theorem map_eraseUses_updateUses (l : List UserTitle) (id v : Int) :
    (l.map fun r => if r.id == id then { r with uses_left := some v } else r).map eraseUses
      = l.map eraseUses := by
  rw [List.map_map]
  apply List.map_congr_left
  intro r _
  by_cases h : r.id == id
  · simp [h, eraseUses, Function.comp]
  · simp [h, eraseUses, Function.comp]

theorem rest8_frame (f : Faults) (db : DB) (now user uid st : Int) (ut : UserTitle) :
    (rest8 f db now user uid st ut).2.user_title_zones = db.user_title_zones
    ∧ (rest8 f db now user uid st ut).2.user_titles.map eraseUses
        = db.user_titles.map eraseUses := by
  unfold rest8
  repeat' split
  all_goals simp [dbInsertValidation, dbUpdateUses, map_eraseUses_updateUses]
  all_goals repeat' split
  all_goals simp [dbInsertValidation, dbUpdateUses, map_eraseUses_updateUses]
  all_goals intro a _
  all_goals by_cases h : a.id = ut.id <;> simp [h, eraseUses]

theorem afterInit_frame (f : Faults) (db : DB) (now user uid st : Int) (ut : UserTitle) :
    (afterInit f db now user uid st ut).2.user_title_zones = db.user_title_zones
    ∧ (afterInit f db now user uid st ut).2.user_titles.map eraseUses
        = db.user_titles.map eraseUses := by
  unfold afterInit
  split
  · exact ⟨rfl, rfl⟩
  · exact rest8_frame f db now user uid st ut

theorem rest8_status_mem (f : Faults) (db : DB) (now user uid st : Int) (ut : UserTitle) :
    (rest8 f db now user uid st ut).1.message.status ∈
      ["ERROR_INTERNAL_SERVER", "ERROR_USER_TITLE_NOT_VALID_FOR_ZONE",
       "ERROR_NO_USES_LEFT", "VALIDATION_SUCCESS"] := by
  unfold rest8
  repeat' split
  all_goals try simp [plainResp, mkSuccess, getMessage_zone, getMessage_no_uses]
  all_goals repeat' split
  all_goals try simp [plainResp, mkSuccess, getMessage_zone, getMessage_no_uses]
  all_goals simp [ERROR_INTERNAL_SERVER, ERROR_USER_TITLE_NOT_VALID_FOR_ZONE,
    ERROR_NO_USES_LEFT, VALIDATION_SUCCESS]

theorem afterInit_status_mem (f : Faults) (db : DB) (now user uid st : Int) (ut : UserTitle) :
    (afterInit f db now user uid st ut).1.message.status ∈
      ["ERROR_REENTRY_TIME_NOT_PASSED", "ERROR_INTERNAL_SERVER",
       "ERROR_USER_TITLE_NOT_VALID_FOR_ZONE", "ERROR_NO_USES_LEFT",
       "VALIDATION_SUCCESS"] := by
  unfold afterInit
  split
  · simp only [plainResp, getMessage_reentry]; decide
  · have h := rest8_status_mem f db now user uid st ut
    simp only [List.mem_cons] at h ⊢
    tauto

theorem reentryBlocked_false_of_diff (db : DB) (now st : Int) (ut : UserTitle)
    (lv : ValidationEvent)
    (hmr : mostRecentValidation db ut.id = some lv) (hdiff : lv.station ≠ st) :
    reentryBlocked db now st ut = false := by
  unfold reentryBlocked
  cases hre : ut.re_entry with
  | none => rfl
  | some re => rw [hmr]; simp [hdiff]

theorem linkFree_true_of (db : DB) (now st : Int) (ut : UserTitle)
    (lnk : Int) (lv : ValidationEvent)
    (hl : ut.link = some lnk) (hmr : mostRecentValidation db ut.id = some lv)
    (htm : now - lv.timestamp < lnk * 60000) (hdiff : lv.station ≠ st) :
    linkFree db now st ut = true := by
  unfold linkFree
  rw [hl, hmr]
  simp [htm, hdiff]

theorem linkFree_false_of_same (db : DB) (now st : Int) (ut : UserTitle)
    (lv : ValidationEvent)
    (hmr : mostRecentValidation db ut.id = some lv) (hsame : lv.station = st) :
    linkFree db now st ut = false := by
  unfold linkFree
  cases hl : ut.link with
  | none => rfl
  | some lnk => rw [hmr]; simp [hsame]

theorem rest8_eval_free (db : DB) (now user uid st : Int) (ut : UserTitle)
    (hcz : hasCommonZone db st ut.id = true)
    (hlf : linkFree db now st ut = true) :
    rest8 noFaults db now user uid st ut =
      (mkSuccess now st ut.id ut.uses_left ut.expiration true,
       dbInsertValidation db
         { user := user, suport := uid, timestamp := now, station := st,
           enter := true, user_title := ut.id }) := by
  unfold rest8
  simp [noFaults, hcz, hlf]

theorem rest8_eval_no_uses (db : DB) (now user uid st : Int) (ut : UserTitle) (u : Int)
    (hcz : hasCommonZone db st ut.id = true)
    (hlf : linkFree db now st ut = false)
    (hu : ut.uses_left = some u) (hneg : u ≤ 0) :
    rest8 noFaults db now user uid st ut = (plainResp ERROR_NO_USES_LEFT, db) := by
  unfold rest8
  simp [noFaults, hcz, hlf, hu, hneg, getMessage_no_uses]

theorem rest8_eval_charge_some (db : DB) (now user uid st : Int) (ut : UserTitle) (u : Int)
    (hcz : hasCommonZone db st ut.id = true)
    (hlf : linkFree db now st ut = false)
    (hu : ut.uses_left = some u) (hpos : 0 < u) :
    rest8 noFaults db now user uid st ut =
      (mkSuccess now st ut.id (some (u - 1)) ut.expiration false,
       dbUpdateUses
         (dbInsertValidation db
           { user := user, suport := uid, timestamp := now, station := st,
             enter := true, user_title := ut.id }) ut.id (u - 1)) := by
  unfold rest8
  have hne : ¬ u ≤ 0 := by omega
  simp [noFaults, hcz, hlf, hu, hne]

theorem rest8_eval_charge_none (db : DB) (now user uid st : Int) (ut : UserTitle)
    (hcz : hasCommonZone db st ut.id = true)
    (hlf : linkFree db now st ut = false)
    (hu : ut.uses_left = none) :
    rest8 noFaults db now user uid st ut =
      (mkSuccess now st ut.id none ut.expiration false,
       dbInsertValidation db
         { user := user, suport := uid, timestamp := now, station := st,
           enter := true, user_title := ut.id }) := by
  unfold rest8
  simp [noFaults, hcz, hlf, hu]

/-- Claim C4: for a tap that passed gates 1-6 on an initialized product with a
non-null re-entry window, the response is the ReentryTooSoon denial if and only
if a most recent validation event exists, is at the same station, and lies
strictly inside the re-entry window. -/
theorem C4_reentry_iff (f : Faults) (db : DB) (now s st : Int)
    (sd : Suport) (stData : Station) (ut : UserTitle) (fu r : Int)
    (h1 : findSuport db s = some sd)
    (h2 : suportInactive now sd = false)
    (h3 : findStation db st = some stData)
    (h4 : stData.available = true)
    (h5 : findActiveUserTitle db sd.user = some ut)
    (h6 : titleExpired now ut = false)
    (h7 : ut.first_use = some fu)
    (h8 : ut.re_entry = some r) :
    (validate f db now s st).1 = plainResp ERROR_REENTRY_TIME_NOT_PASSED
      ↔ ∃ lv, mostRecentValidation db ut.id = some lv ∧ lv.station = st
          ∧ now - lv.timestamp < r * 60000 := by
  rw [validate_eq_afterInit f db now s st sd stData ut fu h1 h2 h3 h4 h5 h6 h7]
  unfold afterInit
  constructor
  · intro heq
    by_cases hrb : reentryBlocked db now st ut = true
    · unfold reentryBlocked at hrb
      rw [h8] at hrb
      cases hmr : mostRecentValidation db ut.id with
      | none => rw [hmr] at hrb; exact absurd hrb (by simp)
      | some lv =>
        rw [hmr] at hrb
        simp only [Bool.and_eq_true, beq_iff_eq, decide_eq_true_eq] at hrb
        exact ⟨lv, rfl, hrb.1, hrb.2⟩
    · rw [Bool.not_eq_true] at hrb
      simp only [hrb, Bool.false_eq_true, if_false] at heq
      have hs := rest8_status_mem f db now sd.user s st ut
      rw [heq] at hs
      exact absurd hs (by decide)
  · rintro ⟨lv, hmr, hstn, htm⟩
    have hrb : reentryBlocked db now st ut = true := by
      unfold reentryBlocked
      rw [h8, hmr]
      simp [hstn, htm]
    simp [hrb, getMessage_reentry]

/-- Witness for C4: with a 15-minute window, a second tap at the same station
10 minutes after the last event is denied ReentryTooSoon. -/
theorem C4_witness :
    (validate noFaults dbC3 600000 1 1).1 = plainResp ERROR_REENTRY_TIME_NOT_PASSED :=
  (C4_reentry_iff noFaults dbC3 600000 1 1
      { uid := 1, user := 1, activation := some 0 } { id := 1, available := true }
      { id := 1, user := 1, uses_left := some 4, first_use := some 0,
        expiration := none, re_entry := some 15, zone_origin := some 5,
        active := true, link := some 60, num_zones := 1 } 0 15
      rfl rfl rfl rfl rfl rfl rfl rfl).mpr
    ⟨{ user := 1, suport := 1, timestamp := 0, station := 1, enter := true, user_title := 1 },
     rfl, rfl, by decide⟩

/-- Claim C3: a tap on a product with a non-null link window, whose most recent
event is at a different station and strictly inside the window, and which
passes every earlier gate including zone coverage, succeeds as a free transfer:
the event is inserted, uses_left is not decremented (the success data carries
the unchanged count), and the link flag is set. If the most recent event is at
the same station, the validation is not marked free. -/
theorem C3_free_transfer :
    (∀ (db : DB) (now s st : Int) (sd : Suport) (stData : Station) (ut : UserTitle)
       (fu lnk : Int) (lv : ValidationEvent),
       findSuport db s = some sd → suportInactive now sd = false →
       findStation db st = some stData → stData.available = true →
       findActiveUserTitle db sd.user = some ut → titleExpired now ut = false →
       ut.first_use = some fu → ut.link = some lnk →
       mostRecentValidation db ut.id = some lv → lv.station ≠ st →
       now - lv.timestamp < lnk * 60000 → hasCommonZone db st ut.id = true →
       validate noFaults db now s st =
         (mkSuccess now st ut.id ut.uses_left ut.expiration true,
          dbInsertValidation db
            { user := sd.user, suport := s, timestamp := now, station := st,
              enter := true, user_title := ut.id }))
    ∧ (∀ (db : DB) (now s st : Int) (sd : Suport) (stData : Station) (ut : UserTitle)
       (fu lnk : Int) (lv : ValidationEvent),
       findSuport db s = some sd → suportInactive now sd = false →
       findStation db st = some stData → stData.available = true →
       findActiveUserTitle db sd.user = some ut → titleExpired now ut = false →
       ut.first_use = some fu → ut.link = some lnk →
       mostRecentValidation db ut.id = some lv → lv.station = st →
       now - lv.timestamp < lnk * 60000 → hasCommonZone db st ut.id = true →
       isFreeSuccess (validate noFaults db now s st).1 = false) := by
  constructor
  · intro db now s st sd stData ut fu lnk lv h1 h2 h3 h4 h5 h6 h7 hl hmr hdiff htm hcz
    rw [validate_eq_afterInit noFaults db now s st sd stData ut fu h1 h2 h3 h4 h5 h6 h7]
    unfold afterInit
    rw [reentryBlocked_false_of_diff db now st ut lv hmr hdiff]
    simp only [Bool.false_eq_true, if_false]
    exact rest8_eval_free db now sd.user s st ut hcz
      (linkFree_true_of db now st ut lnk lv hl hmr htm hdiff)
  · intro db now s st sd stData ut fu lnk lv h1 h2 h3 h4 h5 h6 h7 hl hmr hsame htm hcz
    rw [validate_eq_afterInit noFaults db now s st sd stData ut fu h1 h2 h3 h4 h5 h6 h7]
    unfold afterInit
    have hlf := linkFree_false_of_same db now st ut lv hmr hsame
    by_cases hrb : reentryBlocked db now st ut = true
    · simp [hrb, isFreeSuccess, plainResp, getMessage_reentry, ERROR_REENTRY_TIME_NOT_PASSED]
    · rw [Bool.not_eq_true] at hrb
      simp only [hrb, Bool.false_eq_true, if_false]
      cases hu : ut.uses_left with
      | none =>
        rw [rest8_eval_charge_none db now sd.user s st ut hcz hlf hu]
        simp [isFreeSuccess, mkSuccess]
      | some u =>
        by_cases hneg : u ≤ 0
        · rw [rest8_eval_no_uses db now sd.user s st ut u hcz hlf hu hneg]
          simp [isFreeSuccess, plainResp, ERROR_NO_USES_LEFT]
        · rw [rest8_eval_charge_some db now sd.user s st ut u hcz hlf hu (by omega)]
          simp [isFreeSuccess, mkSuccess]

/-- Witness for C3: the spec's free-transfer example — a tap at station 2,
30 minutes after an event at station 1, inside a 60-minute window, succeeds as
free and the success data still carries 4 remaining uses. -/
theorem C3_witness :
    validate noFaults dbC3 1800000 1 2 =
      (mkSuccess 1800000 2 1 (some 4) none true,
       dbInsertValidation dbC3
         { user := 1, suport := 1, timestamp := 1800000, station := 2,
           enter := true, user_title := 1 }) :=
  C3_free_transfer.1 dbC3 1800000 1 2
    { uid := 1, user := 1, activation := some 0 } { id := 2, available := true }
    { id := 1, user := 1, uses_left := some 4, first_use := some 0,
      expiration := none, re_entry := some 15, zone_origin := some 5,
      active := true, link := some 60, num_zones := 1 } 0 60
    { user := 1, suport := 1, timestamp := 0, station := 1, enter := true, user_title := 1 }
    rfl rfl rfl rfl rfl rfl rfl rfl rfl (by decide) (by decide) rfl

/-- Claim C5: at the remaining-uses gate, a non-free tap with uses_left ≤ 0 is
denied NoUsesLeft; a chargeable success inserts exactly one event and, when
uses_left is non-null, decrements it by exactly one, the response carrying the
updated count, the product's expiration and the link flag; with uses_left null
no decrement happens; and a free validation skips the gate entirely, succeeding
even with uses_left = 0. -/
theorem C5_uses_gate :
    (∀ (db : DB) (now s st : Int) (sd : Suport) (stData : Station) (ut : UserTitle)
       (fu u : Int),
       findSuport db s = some sd → suportInactive now sd = false →
       findStation db st = some stData → stData.available = true →
       findActiveUserTitle db sd.user = some ut → titleExpired now ut = false →
       ut.first_use = some fu → reentryBlocked db now st ut = false →
       hasCommonZone db st ut.id = true → linkFree db now st ut = false →
       ut.uses_left = some u → u ≤ 0 →
       validate noFaults db now s st = (plainResp ERROR_NO_USES_LEFT, db))
    ∧ (∀ (db : DB) (now s st : Int) (sd : Suport) (stData : Station) (ut : UserTitle)
       (fu u : Int),
       findSuport db s = some sd → suportInactive now sd = false →
       findStation db st = some stData → stData.available = true →
       findActiveUserTitle db sd.user = some ut → titleExpired now ut = false →
       ut.first_use = some fu → reentryBlocked db now st ut = false →
       hasCommonZone db st ut.id = true → linkFree db now st ut = false →
       ut.uses_left = some u → 0 < u →
       validate noFaults db now s st =
         (mkSuccess now st ut.id (some (u - 1)) ut.expiration false,
          dbUpdateUses
            (dbInsertValidation db
              { user := sd.user, suport := s, timestamp := now, station := st,
                enter := true, user_title := ut.id }) ut.id (u - 1)))
    ∧ (∀ (db : DB) (now s st : Int) (sd : Suport) (stData : Station) (ut : UserTitle)
       (fu : Int),
       findSuport db s = some sd → suportInactive now sd = false →
       findStation db st = some stData → stData.available = true →
       findActiveUserTitle db sd.user = some ut → titleExpired now ut = false →
       ut.first_use = some fu → reentryBlocked db now st ut = false →
       hasCommonZone db st ut.id = true → linkFree db now st ut = false →
       ut.uses_left = none →
       validate noFaults db now s st =
         (mkSuccess now st ut.id none ut.expiration false,
          dbInsertValidation db
            { user := sd.user, suport := s, timestamp := now, station := st,
              enter := true, user_title := ut.id }))
    ∧ (∀ (db : DB) (now s st : Int) (sd : Suport) (stData : Station) (ut : UserTitle)
       (fu lnk : Int) (lv : ValidationEvent),
       findSuport db s = some sd → suportInactive now sd = false →
       findStation db st = some stData → stData.available = true →
       findActiveUserTitle db sd.user = some ut → titleExpired now ut = false →
       ut.first_use = some fu → ut.link = some lnk →
       mostRecentValidation db ut.id = some lv → lv.station ≠ st →
       now - lv.timestamp < lnk * 60000 → hasCommonZone db st ut.id = true →
       ut.uses_left = some 0 →
       validate noFaults db now s st =
         (mkSuccess now st ut.id (some 0) ut.expiration true,
          dbInsertValidation db
            { user := sd.user, suport := s, timestamp := now, station := st,
              enter := true, user_title := ut.id })) := by
  refine ⟨?_, ?_, ?_, ?_⟩
  · intro db now s st sd stData ut fu u h1 h2 h3 h4 h5 h6 h7 hrb hcz hlf hu hneg
    rw [validate_eq_afterInit noFaults db now s st sd stData ut fu h1 h2 h3 h4 h5 h6 h7]
    unfold afterInit
    simp only [hrb, Bool.false_eq_true, if_false]
    exact rest8_eval_no_uses db now sd.user s st ut u hcz hlf hu hneg
  · intro db now s st sd stData ut fu u h1 h2 h3 h4 h5 h6 h7 hrb hcz hlf hu hpos
    rw [validate_eq_afterInit noFaults db now s st sd stData ut fu h1 h2 h3 h4 h5 h6 h7]
    unfold afterInit
    simp only [hrb, Bool.false_eq_true, if_false]
    exact rest8_eval_charge_some db now sd.user s st ut u hcz hlf hu hpos
  · intro db now s st sd stData ut fu h1 h2 h3 h4 h5 h6 h7 hrb hcz hlf hu
    rw [validate_eq_afterInit noFaults db now s st sd stData ut fu h1 h2 h3 h4 h5 h6 h7]
    unfold afterInit
    simp only [hrb, Bool.false_eq_true, if_false]
    exact rest8_eval_charge_none db now sd.user s st ut hcz hlf hu
  · intro db now s st sd stData ut fu lnk lv h1 h2 h3 h4 h5 h6 h7 hl hmr hdiff htm hcz hu
    rw [validate_eq_afterInit noFaults db now s st sd stData ut fu h1 h2 h3 h4 h5 h6 h7]
    unfold afterInit
    rw [reentryBlocked_false_of_diff db now st ut lv hmr hdiff]
    simp only [Bool.false_eq_true, if_false]
    rw [rest8_eval_free db now sd.user s st ut hcz
      (linkFree_true_of db now st ut lnk lv hl hmr htm hdiff), hu]

/-- Witness for C5: a tap on a product with zero uses left, no link window and
no prior events is denied NoUsesLeft with the store unchanged. -/
theorem C5_witness :
    validate noFaults dbC5 100 1 1 = (plainResp ERROR_NO_USES_LEFT, dbC5) :=
  C5_uses_gate.1 dbC5 100 1 1
    { uid := 1, user := 1, activation := some 0 } { id := 1, available := true }
    { id := 1, user := 1, uses_left := some 0, first_use := some 0,
      expiration := none, re_entry := none, zone_origin := some 5,
      active := true, link := none, num_zones := 1 } 0 0
    rfl rfl rfl rfl rfl rfl rfl rfl rfl rfl rfl (by decide)

/-- Claim C9: on an already-initialized product, the pipeline never touches the
covered-zone rows, and the title rows can change at most in their uses_left
field (first_use, zone_origin and every other field are preserved under the
uses-forgetting map), whatever faults occur. -/
theorem C9_initialized_frame (f : Faults) (db : DB) (now s st : Int)
    (sd : Suport) (ut : UserTitle) (fu : Int)
    (h1 : findSuport db s = some sd)
    (h5 : findActiveUserTitle db sd.user = some ut)
    (h7 : ut.first_use = some fu) :
    (validate f db now s st).2.user_title_zones = db.user_title_zones
    ∧ (validate f db now s st).2.user_titles.map eraseUses
        = db.user_titles.map eraseUses := by
  unfold validate
  rw [h1]
  by_cases h2 : suportInactive now sd = true
  · simp [h2]
  · rw [Bool.not_eq_true] at h2
    cases h3 : findStation db st with
    | none => simp [h2, h3]
    | some stData =>
      cases h4 : stData.available with
      | false => simp [h2, h3, h4]
      | true =>
        by_cases h6 : titleExpired now ut = true
        · simp [h2, h3, h4, h5, h6]
        · rw [Bool.not_eq_true] at h6
          simp only [h2, h3, h4, h5, h6, h7, Bool.false_eq_true, if_false,
            Bool.not_true, Bool.not_false, Bool.true_eq_false]
          exact afterInit_frame f db now sd.user s st ut

/-- Witness for C9: a chargeable same-station tap after the re-entry window
leaves the covered-zone rows and all non-uses title fields unchanged. -/
theorem C9_witness :
    (validate noFaults dbC3 960000 1 1).2.user_title_zones = dbC3.user_title_zones
    ∧ (validate noFaults dbC3 960000 1 1).2.user_titles.map eraseUses
        = dbC3.user_titles.map eraseUses :=
  C9_initialized_frame noFaults dbC3 960000 1 1
    { uid := 1, user := 1, activation := some 0 }
    { id := 1, user := 1, uses_left := some 4, first_use := some 0,
      expiration := none, re_entry := some 15, zone_origin := some 5,
      active := true, link := some 60, num_zones := 1 } 0
    rfl rfl rfl

/-! ## Initialization lemmas -/

theorem validate_init_inl (f : Faults) (db : DB) (now s st : Int)
    (sd : Suport) (stData : Station) (ut : UserTitle) (r : Response × DB)
    (h1 : findSuport db s = some sd)
    (h2 : suportInactive now sd = false)
    (h3 : findStation db st = some stData)
    (h4 : stData.available = true)
    (h5 : findActiveUserTitle db sd.user = some ut)
    (h6 : titleExpired now ut = false)
    (hfu : ut.first_use = none)
    (hip : initPhase f db now st ut = Sum.inl r) :
    validate f db now s st = r := by
  unfold validate
  rw [h1]
  simp [h2, h3, h4, h5, h6, hfu, hip]

theorem validate_init_inr (f : Faults) (db : DB) (now s st : Int)
    (sd : Suport) (stData : Station) (ut ut2 : UserTitle) (db2 : DB)
    (h1 : findSuport db s = some sd)
    (h2 : suportInactive now sd = false)
    (h3 : findStation db st = some stData)
    (h4 : stData.available = true)
    (h5 : findActiveUserTitle db sd.user = some ut)
    (h6 : titleExpired now ut = false)
    (hfu : ut.first_use = none)
    (hip : initPhase f db now st ut = Sum.inr (ut2, db2)) :
    validate f db now s st = afterInit f db2 now sd.user s st ut2 := by
  unfold validate
  rw [h1]
  simp [h2, h3, h4, h5, h6, hfu, hip]

theorem dbUpdateFirstUse_mem (db : DB) (i t z : Int) :
    ∀ r ∈ (dbUpdateFirstUse db i t z).user_titles, r.id = i →
      r.first_use = some t ∧ r.zone_origin = some z := by
  intro r hr hid
  simp only [dbUpdateFirstUse, List.mem_map] at hr
  obtain ⟨r0, hr0, heq⟩ := hr
  by_cases h : (r0.id == i) = true
  · rw [if_pos h] at heq
    subst heq
    exact ⟨rfl, rfl⟩
  · rw [if_neg h] at heq
    subst heq
    exact absurd (beq_iff_eq.mpr hid) h

theorem init_fields_persist {l2 l1 : List UserTitle}
    (h : l2.map eraseUses = l1.map eraseUses) {i t z : Int}
    (hfields : ∀ r ∈ l1, r.id = i → r.first_use = some t ∧ r.zone_origin = some z) :
    ∀ r ∈ l2, r.id = i → r.first_use = some t ∧ r.zone_origin = some z := by
  intro r hr hid
  have hm : eraseUses r ∈ l1.map eraseUses := by
    rw [← h]
    exact List.mem_map_of_mem eraseUses hr
  obtain ⟨r1, hr1, heq⟩ := List.mem_map.mp hm
  have hidr : r1.id = r.id := by
    have h2 := congrArg UserTitle.id heq
    simpa [eraseUses] using h2
  obtain ⟨hf, hz⟩ := hfields r1 hr1 (hidr.trans hid)
  have hfr : r1.first_use = r.first_use := by
    have h2 := congrArg UserTitle.first_use heq
    simpa [eraseUses] using h2
  have hzr : r1.zone_origin = r.zone_origin := by
    have h2 := congrArg UserTitle.zone_origin heq
    simpa [eraseUses] using h2
  exact ⟨by rw [← hfr]; exact hf, by rw [← hzr]; exact hz⟩

theorem mem_stationZonesAsc (db : DB) (st z : Int) :
    z ∈ stationZonesAsc db st
      ↔ z ∈ (db.station_zones.filter (fun r => r.station == st)).map (fun r => r.zone) := by
  unfold stationZonesAsc sortAsc
  exact (List.perm_insertionSort _ _).mem_iff

theorem stationZonesAsc_head_le (db : DB) (st z0 : Int) (zs : List Int)
    (h : stationZonesAsc db st = z0 :: zs) :
    ∀ z ∈ stationZonesAsc db st, z0 ≤ z := by
  have hs : (stationZonesAsc db st).Sorted (fun a b => a ≤ b) := by
    unfold stationZonesAsc sortAsc
    exact List.sorted_insertionSort _ _
  rw [h] at hs ⊢
  intro z hz
  rcases List.mem_cons.mp hz with rfl | hz2
  · exact le_refl z
  · exact (List.sorted_cons.mp hs).1 z hz2

/-- Claim C6: a first-use tap that reaches gate 6 fails CannotInitialize
exactly when the station has no associated zones or the circular zone set from
the station's lowest zone id and the product's zone-count entitlement is empty;
otherwise initialization proceeds, persisting first_use = now, zone_origin =
the station's lowest zone id, and every computed covered-zone row. -/
theorem C6_lazy_init (db : DB) (now s st : Int)
    (sd : Suport) (stData : Station) (ut : UserTitle)
    (h1 : findSuport db s = some sd)
    (h2 : suportInactive now sd = false)
    (h3 : findStation db st = some stData)
    (h4 : stData.available = true)
    (h5 : findActiveUserTitle db sd.user = some ut)
    (h6 : titleExpired now ut = false)
    (hfu : ut.first_use = none) :
    ((validate noFaults db now s st).1.message.status = "ERROR_CANNOT_INITIALIZE_USER_TITLE"
      ↔ stationZonesAsc db st = []
        ∨ ∃ z0 zs, stationZonesAsc db st = z0 :: zs
            ∧ circularZones db.zones z0 ut.num_zones = [])
    ∧ (∀ z0 zs, stationZonesAsc db st = z0 :: zs →
        circularZones db.zones z0 ut.num_zones ≠ [] →
        (∀ r ∈ (validate noFaults db now s st).2.user_titles,
           r.id = ut.id → r.first_use = some now ∧ r.zone_origin = some z0)
        ∧ (∀ z ∈ circularZones db.zones z0 ut.num_zones,
             ({ user_title := ut.id, zone := z } : UserTitleZone)
               ∈ (validate noFaults db now s st).2.user_title_zones)
        ∧ (∀ row ∈ db.station_zones, row.station = st → z0 ≤ row.zone)) := by
  cases hsz : stationZonesAsc db st with
  | nil =>
    have hip : initPhase noFaults db now st ut
        = Sum.inl (plainResp (getMessage "ERROR_CANNOT_INITIALIZE_USER_TITLE"), db) := by
      unfold initPhase
      simp [noFaults, hsz]
    rw [validate_init_inl noFaults db now s st sd stData ut _ h1 h2 h3 h4 h5 h6 hfu hip]
    constructor
    · constructor
      · intro _
        exact Or.inl rfl
      · intro _
        rfl
    · intro z0 zs hcontra
      exact absurd hcontra (by simp)
  | cons z0h zsh =>
    by_cases hcz : circularZones db.zones z0h ut.num_zones = []
    · have hip : initPhase noFaults db now st ut
          = Sum.inl (plainResp (getMessage "ERROR_CANNOT_INITIALIZE_USER_TITLE"), db) := by
        unfold initPhase
        simp [noFaults, hsz, hcz]
      rw [validate_init_inl noFaults db now s st sd stData ut _ h1 h2 h3 h4 h5 h6 hfu hip]
      constructor
      · constructor
        · intro _
          exact Or.inr ⟨z0h, zsh, rfl, hcz⟩
        · intro _
          rfl
      · intro z0 zs hz0 hne
        injection hz0 with e1 e2
        subst e1
        exact absurd hcz hne
    · have hip : initPhase noFaults db now st ut =
          Sum.inr ({ ut with first_use := some now, zone_origin := some z0h },
                   dbInsertTitleZones (dbUpdateFirstUse db ut.id now z0h) ut.id
                     (circularZones db.zones z0h ut.num_zones)) := by
        unfold initPhase
        cases hc2 : circularZones db.zones z0h ut.num_zones with
        | nil => exact absurd hc2 hcz
        | cons c cs => simp [noFaults, hsz, hc2]
      rw [validate_init_inr noFaults db now s st sd stData ut _ _ h1 h2 h3 h4 h5 h6 hfu hip]
      constructor
      · constructor
        · intro hstat
          have hs := afterInit_status_mem noFaults
            (dbInsertTitleZones (dbUpdateFirstUse db ut.id now z0h) ut.id
              (circularZones db.zones z0h ut.num_zones)) now sd.user s st
            { ut with first_use := some now, zone_origin := some z0h }
          rw [hstat] at hs
          exact absurd hs (by decide)
        · rintro (hnil | ⟨z0p, zsp, hz0p, hczp⟩)
          · exact absurd hnil (by simp)
          · injection hz0p with e1 e2
            subst e1
            exact absurd hczp hcz
      · intro z0 zs hz0 hne
        injection hz0 with e1 e2
        subst e1
        obtain ⟨hzfr, hmap⟩ := afterInit_frame noFaults
          (dbInsertTitleZones (dbUpdateFirstUse db ut.id now z0h) ut.id
            (circularZones db.zones z0h ut.num_zones)) now sd.user s st
          { ut with first_use := some now, zone_origin := some z0h }
        refine ⟨?_, ?_, ?_⟩
        · exact init_fields_persist hmap (dbUpdateFirstUse_mem db ut.id now z0h)
        · intro z hz
          rw [hzfr]
          show _ ∈ (dbUpdateFirstUse db ut.id now z0h).user_title_zones
            ++ (circularZones db.zones z0h ut.num_zones).map
                (fun z => { user_title := ut.id, zone := z })
          exact List.mem_append_right _ (List.mem_map.mpr ⟨z, hz, rfl⟩)
        · intro row hrow hstn
          have hle := stationZonesAsc_head_le db st z0h zsh hsz
          apply hle
          rw [hsz, ← hsz, mem_stationZonesAsc]
          exact List.mem_map.mpr ⟨row, List.mem_filter.mpr ⟨hrow, by simp [hstn]⟩, rfl⟩

/-- Witness for C6: the first-use tap of `dbC1` persists the covered-zone row
for zone 5 computed at initialization. -/
theorem C6_witness :
    ({ user_title := 1, zone := 5 } : UserTitleZone)
      ∈ (validate noFaults dbC1 100 1 1).2.user_title_zones :=
  (((C6_lazy_init dbC1 100 1 1
      { uid := 1, user := 1, activation := some 0 } { id := 1, available := true }
      { id := 1, user := 1, uses_left := some 0, first_use := none,
        expiration := none, re_entry := none, zone_origin := none,
        active := true, link := none, num_zones := 1 }
      rfl rfl rfl rfl rfl rfl rfl).2 5 [] rfl (by decide)).2.1) 5 (by decide)

end Portam
